import Mathlib

/-!
Shallow embedding of the `wgapi` package of wangyg115/wg-gen-web.

The package is a thin layer over external collaborators:
* the WireGuard control client `wgctrl` (device lookup, `ConfigureDevice`),
* `wgtypes.ParseKey`, `net.ResolveUDPAddr`, `time.ParseDuration`,
  `net.ParseCIDR` from the Go libraries,
* the client registry `core.ReadClients` and the fallback
  `core.UpdatePeer`.

All of those are modelled as oracle functions collected in an `Env`
record; the package's own code (validation, request handling, status
enrichment and sorting, the JSON-RPC error constructors) is translated
function by function.  Fallible Go calls returning `(T, error)` become
`Except String T` (the `String` is the collaborator's error text).
Go `time.Duration` and `time.Time` values are nanosecond counts
modelled as `Int`; WireGuard keys (`wgtypes.Key`) are modelled as `Nat`
with `0` as the zero value `wgtypes.Key{}`.

Mutation of the device happens only through `ConfigureDevice`; each
operation therefore returns, next to its result, the list of `Config`
values it passed to `ConfigureDevice`, so "no mutation occurred" is
"that list is empty".
-/

namespace Wgapi

/-- JSON-RPC error envelope: the `Error` struct of the package
(code, message, optional data). -/
structure Error where
  code : Int
  message : String
  data : Option String
deriving Repr, DecidableEq

/-- The `Error.Error()` formatting method. -/
def errorText (e : Error) : String :=
  "Error(" ++ toString e.code ++ "): " ++ e.message

/-- ParseError returns a JSON-RPC Parse Error (-32700). -/
def ParseError (message : String) (data : Option String) : Error :=
  ⟨-32700, message, data⟩

/-- InvalidRequest returns a JSON-RPC Invalid Request error (-32600). -/
def InvalidRequest (message : String) (data : Option String) : Error :=
  ⟨-32600, message, data⟩

/-- MethodNotFound returns a JSON-RPC Method Not Found error (-32601). -/
def MethodNotFound (message : String) (data : Option String) : Error :=
  ⟨-32601, message, data⟩

/-- InvalidParams returns a JSON-RPC Invalid Params error (-32602). -/
def InvalidParams (message : String) (data : Option String) : Error :=
  ⟨-32602, message, data⟩

/-- InternalError returns a JSON-RPC Internal Server error (-32603). -/
def InternalError (message : String) (data : Option String) : Error :=
  ⟨-32603, message, data⟩

/-- ServerError returns a JSON-RPC Server Error; the Go doc comment says it
"must be given a code between -32000 and -32099", but the function body
stores the given code without checking it. -/
def ServerError (code : Int) (message : String) (data : Option String) : Error :=
  ⟨code, message, data⟩

/-- A Go `error` value returned by the handlers: either the package's
JSON-RPC `Error` or a generic error built with `fmt.Errorf`. -/
inductive GoError where
  | rpc (e : Error)
  | wrapped (msg : String)
deriving Repr, DecidableEq

/-- Model of `wgtypes.Peer`: a peer as reported by the control client.
Keys are `Nat` (0 = zero key), times and durations are nanoseconds. -/
structure WPeer where
  publicKey : Nat
  presharedKey : Nat
  endpointStr : String
  persistentKeepaliveInterval : Int
  lastHandshakeTime : Int
  receiveBytes : Int
  transmitBytes : Int
  allowedIPs : List String
  protocolVersion : Int
deriving Repr, DecidableEq

/-- Model of `wgtypes.Device` (the fields `GetDeviceInfo` reads). -/
structure WDevice where
  name : String
  typeStr : String
  publicKey : Nat
  listenPort : Int
  firewallMark : Int
  peers : List WPeer
deriving Repr, DecidableEq

/-- Model of `wgtypes.PeerConfig` as built by `AddPeer`/`RemovePeer`. -/
structure PeerConfig where
  publicKey : Nat
  presharedKey : Option Nat
  endpoint : Option String
  persistentKeepaliveInterval : Option Int
  allowedIPs : List String
  remove : Bool
deriving Repr, DecidableEq

/-- Model of `wgtypes.Config` passed to `ConfigureDevice`. -/
structure Config where
  peers : List PeerConfig
deriving Repr, DecidableEq

/-- The RPC `Peer` DTO produced by `peer2rpc`. -/
structure Peer where
  publicKey : String
  hasPresharedKey : Bool
  endpoint : String
  persistentKeepAlive : String
  lastHandshake : Int
  receiveBytes : Int
  transmitBytes : Int
  allowedIPs : List String
  protocolVersion : Int
deriving Repr, DecidableEq

/-- The `GetPeerRequest` DTO. -/
structure GetPeerRequest where
  publicKey : String
deriving Repr, DecidableEq

/-- The `AddPeerRequest` DTO. -/
structure AddPeerRequest where
  publicKey : String
  presharedKey : String
  endpoint : String
  persistentKeepAlive : String
  allowedIPs : List String
  validateOnly : Bool
deriving Repr, DecidableEq

/-- The `RemovePeerRequest` DTO. -/
structure RemovePeerRequest where
  publicKey : String
  validateOnly : Bool
deriving Repr, DecidableEq

/-- The `CfgPeerResponse` DTO (`OK` defaults to Go's zero value `false`). -/
structure CfgPeerResponse where
  ok : Bool
deriving Repr, DecidableEq

/-- The `GetPeerResponse` DTO; `none` models a nil `Peer` pointer. -/
structure GetPeerResponse where
  peer : Option Peer
deriving Repr, DecidableEq

/-- The `ListPeersResponse` DTO. -/
structure ListPeersResponse where
  peers : List Peer
deriving Repr, DecidableEq

/-- A client registry entry as read by `core.ReadClients`
(model.Client fields used here: PublicKey, Name, Email). -/
structure Client where
  publicKey : String
  name : String
  email : String
deriving Repr, DecidableEq

/-- The fields of `model.Peer` used by `updatePeerCall`. -/
structure MPeer where
  publicKey : String
  presharedKey : String
  allowedIPs : List String
deriving Repr, DecidableEq

/-- The `model.Resp` DTO. -/
structure Resp where
  ok : Bool
deriving Repr, DecidableEq

/-- The `model.ClientStatus` DTO built by `clientStatus`
(times and durations in nanoseconds). -/
structure ClientStatus where
  publicKey : String
  hasPresharedKey : Bool
  protocolVersion : Int
  name : String
  email : String
  connected : Bool
  allowedIPs : List String
  endpoint : String
  lastHandshake : Int
  lastHandshakeRelative : Int
  receivedBytes : Int
  transmittedBytes : Int
deriving Repr, DecidableEq

/-- The environment: every external collaborator the package calls,
plus the ambient state it reads (env var, current time, device). -/
structure Env where
  /-- value of the `WG_DEVICE_NAME` environment variable ("" if unset) -/
  wgDeviceName : String
  /-- `wgtypes.ParseKey` -/
  parseKey : String → Except String Nat
  /-- `net.ResolveUDPAddr "udp"` (result kept as its string form) -/
  resolveUDPAddr : String → Except String String
  /-- `time.ParseDuration` (nanoseconds) -/
  parseDuration : String → Except String Int
  /-- `net.ParseCIDR` (the returned `*IPNet`, kept as its string form) -/
  parseCIDR : String → Except String String
  /-- `s.wg.Device(s.deviceName)` -/
  device : Except String WDevice
  /-- `s.wg.ConfigureDevice(s.deviceName, cfg)` -/
  configureDevice : Config → Except String Unit
  /-- `core.ReadClients` -/
  readClients : Except String (List Client)
  /-- current time in nanoseconds, for `time.Since` -/
  now : Int
  /-- `wgtypes.Key.String()` -/
  keyToString : Nat → String
  /-- `time.Duration.String()` -/
  durToString : Int → String
  /-- outcome of `New()` (client construction, env var, device lookup) -/
  newResult : Except GoError Unit
  /-- the fallback `core.UpdatePeer` -/
  coreUpdatePeer : MPeer → Bool → Except GoError Resp × List Config

/-- Translation `peer2rpc` from a control-client peer to the RPC DTO. -/
def peer2rpc (env : Env) (peer : WPeer) : Peer :=
  { publicKey := env.keyToString peer.publicKey
    hasPresharedKey := peer.presharedKey ≠ 0
    endpoint := peer.endpointStr
    persistentKeepAlive :=
      if peer.persistentKeepaliveInterval > 0 then
        env.durToString peer.persistentKeepaliveInterval
      else ""
    lastHandshake := peer.lastHandshakeTime
    receiveBytes := peer.receiveBytes
    transmitBytes := peer.transmitBytes
    allowedIPs := peer.allowedIPs
    protocolVersion := peer.protocolVersion }

/-- ListPeers: fetch the device and translate every peer. -/
def ListPeers (env : Env) : Except GoError ListPeersResponse :=
  match env.device with
  | .error msg => .error (.wrapped ("could not get WireGuard device: " ++ msg))
  | .ok dev => .ok ⟨dev.peers.map (peer2rpc env)⟩

/-- validateGetPeerRequest (a `none` request models a nil pointer). -/
def validateGetPeerRequest (env : Env) : Option GetPeerRequest → Option Error
  | none => some (InvalidParams "request body required" none)
  | some req =>
    if req.publicKey = "" then
      some (InvalidParams "public key is required" none)
    else if req.publicKey.length ≠ 44 then
      some (InvalidParams "malformed public key" none)
    else
      match env.parseKey req.publicKey with
      | .error msg => some (InvalidParams ("invalid public key: " ++ msg) none)
      | .ok _ => none

/-- GetPeer: validate, fetch the device, and look the peer up by key. -/
def GetPeer (env : Env) (oreq : Option GetPeerRequest) :
    Except GoError GetPeerResponse :=
  match validateGetPeerRequest env oreq with
  | some e => .error (.rpc e)
  | none =>
    match oreq with
    | none =>
      -- unreachable: validation rejects a nil request
      .error (.rpc (InvalidParams "request body required" none))
    | some req =>
      match env.device with
      | .error msg =>
        .error (.wrapped ("could not get WireGuard device: " ++ msg))
      | .ok dev =>
        match env.parseKey req.publicKey with
        | .error msg =>
          .error (.rpc (InvalidParams ("invalid public key: " ++ msg) none))
        | .ok publicKey =>
          match dev.peers.find? (fun p => p.publicKey == publicKey) with
          | some peer => .ok ⟨some (peer2rpc env peer)⟩
          | none => .ok ⟨none⟩

/-- The `for _, allowedIP := range req.AllowedIPs` loop of
`validateAddPeerRequest`: first malformed CIDR wins. -/
def validateAllowedIPs (env : Env) : List String → Option Error
  | [] => none
  | ip :: rest =>
    match env.parseCIDR ip with
    | .error msg =>
      some (InvalidParams ("range \"" ++ ip ++ "\" is not valid: " ++ msg) none)
    | .ok _ => validateAllowedIPs env rest

/-- The `if req.PresharedKey != ""` block of `validateAddPeerRequest`. -/
def validatePresharedPart (env : Env) (req : AddPeerRequest) : Option Error :=
  if req.presharedKey ≠ "" then
    (if req.presharedKey.length ≠ 44 then
      some (InvalidParams "malformed preshared key" none)
    else
      match env.parseKey req.presharedKey with
      | .error msg => some (InvalidParams ("invalid preshared key: " ++ msg) none)
      | .ok _ => none)
  else none

/-- The `if req.Endpoint != ""` block of `validateAddPeerRequest`. -/
def validateEndpointPart (env : Env) (req : AddPeerRequest) : Option Error :=
  if req.endpoint ≠ "" then
    (match env.resolveUDPAddr req.endpoint with
    | .error msg => some (InvalidParams ("invalid endpoint: " ++ msg) none)
    | .ok _ => none)
  else none

/-- The `if req.PersistentKeepAlive != ""` block of
`validateAddPeerRequest`. -/
def validateKeepalivePart (env : Env) (req : AddPeerRequest) : Option Error :=
  if req.persistentKeepAlive ≠ "" then
    (match env.parseDuration req.persistentKeepAlive with
    | .error msg => some (InvalidParams ("invalid keepalive: " ++ msg) none)
    | .ok _ => none)
  else none

/-- validateAddPeerRequest, in the source's check order. -/
def validateAddPeerRequest (env : Env) : Option AddPeerRequest → Option Error
  | none => some (InvalidParams "request body required" none)
  | some req =>
    if req.publicKey = "" then
      some (InvalidParams "public key is required" none)
    else if req.publicKey.length ≠ 44 then
      some (InvalidParams "malformed public key" none)
    else
      match env.parseKey req.publicKey with
      | .error msg => some (InvalidParams ("invalid public key: " ++ msg) none)
      | .ok _ =>
        match validatePresharedPart env req with
        | some e => some e
        | none =>
          match validateEndpointPart env req with
          | some e => some e
          | none =>
            match validateKeepalivePart env req with
            | some e => some e
            | none => validateAllowedIPs env req.allowedIPs

/-- The `for _, allowedIP := range req.AllowedIPs` loop of `AddPeer`:
parse each CIDR, appending to the peer config's allowed-IP list. -/
def buildAllowedIPs (env : Env) : List String → Except Error (List String)
  | [] => .ok []
  | ip :: rest =>
    match env.parseCIDR ip with
    | .error msg =>
      .error (InvalidParams ("range \"" ++ ip ++ "\" is not valid: " ++ msg) none)
    | .ok aip =>
      match buildAllowedIPs env rest with
      | .error e => .error e
      | .ok l => .ok (aip :: l)

/-- AddPeer body after validation and the ValidateOnly short-circuit:
re-parse the fields, build the peer config, call ConfigureDevice.
Returns the result and the list of configs passed to ConfigureDevice. -/
def addPeerConfigure (env : Env) (req : AddPeerRequest) :
    Except GoError CfgPeerResponse × List Config :=
  match env.parseKey req.publicKey with
  | .error msg =>
    (.error (.rpc (InvalidParams ("invalid public key: " ++ msg) none)), [])
  | .ok publicKey =>
    match
      (if req.presharedKey ≠ "" then
        (match env.parseKey req.presharedKey with
        | .error msg =>
          .error (InvalidParams ("invalid preshared key: " ++ msg) none)
        | .ok pk => .ok (some pk))
      else .ok none : Except Error (Option Nat)) with
    | .error e => (.error (.rpc e), [])
    | .ok presharedKey =>
      match
        (if req.endpoint ≠ "" then
          (match env.resolveUDPAddr req.endpoint with
          | .error msg =>
            .error (InvalidParams ("invalid endpoint: " ++ msg) none)
          | .ok addr => .ok (some addr))
        else .ok none : Except Error (Option String)) with
      | .error e => (.error (.rpc e), [])
      | .ok endpoint =>
        match
          (if req.persistentKeepAlive ≠ "" then
            (match env.parseDuration req.persistentKeepAlive with
            | .error msg =>
              .error (InvalidParams ("invalid keepalive: " ++ msg) none)
            | .ok d => .ok (some d))
          else .ok none : Except Error (Option Int)) with
        | .error e => (.error (.rpc e), [])
        | .ok keepalive =>
          match buildAllowedIPs env req.allowedIPs with
          | .error e => (.error (.rpc e), [])
          | .ok aips =>
            let peer : PeerConfig :=
              { publicKey := publicKey
                presharedKey := presharedKey
                endpoint := endpoint
                persistentKeepaliveInterval := keepalive
                allowedIPs := aips
                remove := false }
            let cfg : Config := ⟨[peer]⟩
            match env.configureDevice cfg with
            | .error msg =>
              (.error (.wrapped ("could not configure WireGuard device: " ++ msg)),
                [cfg])
            | .ok _ => (.ok ⟨true⟩, [cfg])

/-- AddPeer: validate, short-circuit on ValidateOnly, then configure. -/
def AddPeer (env : Env) (oreq : Option AddPeerRequest) :
    Except GoError CfgPeerResponse × List Config :=
  match validateAddPeerRequest env oreq with
  | some e => (.error (.rpc e), [])
  | none =>
    match oreq with
    | none =>
      -- unreachable: validation rejects a nil request
      (.error (.rpc (InvalidParams "request body required" none)), [])
    | some req =>
      if req.validateOnly then (.ok ⟨false⟩, [])
      else addPeerConfigure env req

/-- validateRemovePeerRequest. -/
def validateRemovePeerRequest (env : Env) :
    Option RemovePeerRequest → Option Error
  | none => some (InvalidParams "request body required" none)
  | some req =>
    if req.publicKey = "" then
      some (InvalidParams "public key is required" none)
    else if req.publicKey.length ≠ 44 then
      some (InvalidParams "malformed public key" none)
    else
      match env.parseKey req.publicKey with
      | .error msg => some (InvalidParams ("invalid public key: " ++ msg) none)
      | .ok _ => none

/-- RemovePeer: validate, short-circuit on ValidateOnly, then configure
a removal entry.  Note the second ParseKey failure is wrapped with
`fmt.Errorf`, not InvalidParams, in the source. -/
def RemovePeer (env : Env) (oreq : Option RemovePeerRequest) :
    Except GoError CfgPeerResponse × List Config :=
  match validateRemovePeerRequest env oreq with
  | some e => (.error (.rpc e), [])
  | none =>
    match oreq with
    | none =>
      -- unreachable: validation rejects a nil request
      (.error (.rpc (InvalidParams "request body required" none)), [])
    | some req =>
      if req.validateOnly then (.ok ⟨false⟩, [])
      else
        match env.parseKey req.publicKey with
        | .error msg => (.error (.wrapped ("invalid public key: " ++ msg)), [])
        | .ok publicKey =>
          let peer : PeerConfig :=
            { publicKey := publicKey
              presharedKey := none
              endpoint := none
              persistentKeepaliveInterval := none
              allowedIPs := []
              remove := true }
          let cfg : Config := ⟨[peer]⟩
          match env.configureDevice cfg with
          | .error msg =>
            (.error (.wrapped ("could not configure WireGuard device: " ++ msg)),
              [cfg])
          | .ok _ => (.ok ⟨true⟩, [cfg])

/-- Enabeled (sic): the feature flag, true iff `WG_DEVICE_NAME` is set. -/
def Enabeled (env : Env) : Bool :=
  env.wgDeviceName ≠ ""

/-- Three minutes in nanoseconds.  The source tests
`peerHandshakeRelative.Minutes() < 3`; for every `int64` duration this
float64 comparison agrees with the exact integer comparison against
`3 * time.Minute` nanoseconds, which is how it is modelled here. -/
def threeMinutes : Int := 180000000000

/-- The `ClientStatus` built for one peer inside the `clientStatus`
loop: name/email default to "UNKNOWN" and are overwritten by the first
registry client with the same public key when the registry was read. -/
def newClientStatusOf (env : Env) (withClientDetails : Bool)
    (clients : List Client) (peer : Peer) : ClientStatus :=
  let rel := env.now - peer.lastHandshake
  let base : ClientStatus :=
    { publicKey := peer.publicKey
      hasPresharedKey := peer.hasPresharedKey
      protocolVersion := peer.protocolVersion
      name := "UNKNOWN"
      email := "UNKNOWN"
      connected := decide (rel < threeMinutes)
      allowedIPs := peer.allowedIPs
      endpoint := peer.endpoint
      lastHandshake := peer.lastHandshake
      lastHandshakeRelative := rel
      receivedBytes := peer.receiveBytes
      transmittedBytes := peer.transmitBytes }
  if withClientDetails then
    match clients.find? (fun c => c.publicKey == peer.publicKey) with
    | some c => { base with name := c.name, email := c.email }
    | none => base
  else base

/-- The comparison of the final `sort.Slice`: ascending
`LastHandshakeRelative`. -/
def statusLe (a b : ClientStatus) : Prop :=
  a.lastHandshakeRelative ≤ b.lastHandshakeRelative

instance : DecidableRel statusLe := fun a b =>
  inferInstanceAs (Decidable (a.lastHandshakeRelative ≤ b.lastHandshakeRelative))

instance : IsTotal ClientStatus statusLe :=
  ⟨fun a b => Int.le_total a.lastHandshakeRelative b.lastHandshakeRelative⟩

instance : IsTrans ClientStatus statusLe :=
  ⟨fun _ _ _ hab hbc => le_trans hab hbc⟩

/-- The `withClientDetails` flag and client list of `clientStatus`:
a failing `core.ReadClients` disables enrichment instead of failing. -/
def clientsOf (env : Env) : Bool × List Client :=
  match env.readClients with
  | .error _ => (false, [])
  | .ok cs => (true, cs)

/-- clientStatus: list the peers, enrich them from the client registry
(degrading to no enrichment when the registry read fails), and sort by
ascending time since last handshake. -/
def clientStatus (env : Env) : Except GoError (List ClientStatus) :=
  match env.newResult with
  | .error e => .error e
  | .ok _ =>
    match ListPeers env with
    | .error e => .error e
    | .ok st =>
      .ok (List.insertionSort statusLe
        (st.peers.map (newClientStatusOf env (clientsOf env).1 (clientsOf env).2)))

/-- updatePeerCall: translate a `model.Peer` into an AddPeerRequest or
RemovePeerRequest (ValidateOnly is the zero value false) and call the
corresponding server operation. -/
def updatePeerCall (env : Env) (peer : MPeer) (enable : Bool) :
    Except GoError Resp × List Config :=
  match env.newResult with
  | .error e => (.error e, [])
  | .ok _ =>
    if enable then
      let rq : AddPeerRequest :=
        { publicKey := peer.publicKey
          presharedKey := peer.presharedKey
          endpoint := ""
          persistentKeepAlive := ""
          allowedIPs := peer.allowedIPs
          validateOnly := false }
      match AddPeer env (some rq) with
      | (.error e, tr) => (.error e, tr)
      | (.ok rsp, tr) => (.ok ⟨rsp.ok⟩, tr)
    else
      let rq : RemovePeerRequest := { publicKey := peer.publicKey, validateOnly := false }
      match RemovePeer env (some rq) with
      | (.error e, tr) => (.error e, tr)
      | (.ok rsp, tr) => (.ok ⟨rsp.ok⟩, tr)

/-- UpdatePeer: dispatch on the feature flag between this module's
`updatePeerCall` and the fallback `core.UpdatePeer`. -/
def UpdatePeer (env : Env) (peer : MPeer) (enable : Bool) :
    Except GoError Resp × List Config :=
  if Enabeled env then updatePeerCall env peer enable
  else env.coreUpdatePeer peer enable

/-! Concrete fixtures: a small environment with two device peers and a
one-entry client registry, used to evaluate the definitions on closed
inputs. -/

/-- A well-formed 44-character key string (the fresh peer's). -/
def pk44 : String := String.mk (List.replicate 44 'A')

/-- A second well-formed 44-character key string (a preshared key). -/
def psk44 : String := String.mk (List.replicate 44 'B')

/-- A third well-formed 44-character key string (the stale peer's). -/
def pkC44 : String := String.mk (List.replicate 44 'C')

/-- A fourth well-formed 44-character key string, matching no peer. -/
def pkD44 : String := String.mk (List.replicate 44 'D')

/-- A recently-handshaking device peer (key 7 = `pk44`). -/
def exPeerFresh : WPeer :=
  { publicKey := 7
    presharedKey := 0
    endpointStr := "10.0.0.2:51820"
    persistentKeepaliveInterval := 0
    lastHandshakeTime := 100000000000
    receiveBytes := 1000
    transmitBytes := 2000
    allowedIPs := ["10.0.0.0/24"]
    protocolVersion := 1 }

/-- A long-silent device peer (key 9 = `pkC44`). -/
def exPeerStale : WPeer :=
  { publicKey := 9
    presharedKey := 4
    endpointStr := "10.0.0.3:51820"
    persistentKeepaliveInterval := 25000000000
    lastHandshakeTime := 0
    receiveBytes := 10
    transmitBytes := 20
    allowedIPs := []
    protocolVersion := 1 }

/-- The example device, peers deliberately unsorted by handshake age. -/
def exDevice : WDevice :=
  { name := "wg0"
    typeStr := "Linux kernel"
    publicKey := 3
    listenPort := 51820
    firewallMark := 0
    peers := [exPeerStale, exPeerFresh] }

/-- The example environment: flag set, device readable, registry
knowing only the fresh peer, clock at 200 s (in ns). -/
def exEnv : Env :=
  { wgDeviceName := "wg0"
    parseKey := fun s =>
      if s.length = 44 then
        (if s = pk44 then .ok 7
         else if s = psk44 then .ok 8
         else if s = pkC44 then .ok 9
         else .ok 5)
      else .error "illegal base64 data at input byte 0"
    resolveUDPAddr := fun s =>
      if s = "example.com:51820" then .ok "93.184.216.34:51820"
      else .error "no such host"
    parseDuration := fun s =>
      if s = "25s" then .ok 25000000000 else .error "invalid duration"
    parseCIDR := fun s =>
      if s = "10.0.0.0/24" then .ok "10.0.0.0/24"
      else .error "invalid CIDR address"
    device := .ok exDevice
    configureDevice := fun _ => .ok ()
    readClients := .ok [⟨pk44, "alice", "alice@example.com"⟩]
    now := 200000000000
    keyToString := fun k =>
      if k = 7 then pk44 else if k = 9 then pkC44 else "KEY"
    durToString := fun _ => "25s"
    newResult := .ok ()
    coreUpdatePeer := fun _ _ => (.ok ⟨true⟩, []) }

/-- The example environment with the client registry unavailable. -/
def exEnvNoReg : Env :=
  { exEnv with readClients := .error "open clients dir: no such file" }

/-- The example environment with `WG_DEVICE_NAME` unset. -/
def exEnvDisabled : Env := { exEnv with wgDeviceName := "" }

/-- The ClientStatus `clientStatus exEnv` computes for the fresh peer. -/
def exStatusFresh : ClientStatus :=
  { publicKey := pk44
    hasPresharedKey := false
    protocolVersion := 1
    name := "alice"
    email := "alice@example.com"
    connected := true
    allowedIPs := ["10.0.0.0/24"]
    endpoint := "10.0.0.2:51820"
    lastHandshake := 100000000000
    lastHandshakeRelative := 100000000000
    receivedBytes := 1000
    transmittedBytes := 2000 }

/-- The ClientStatus `clientStatus exEnv` computes for the stale peer. -/
def exStatusStale : ClientStatus :=
  { publicKey := pkC44
    hasPresharedKey := true
    protocolVersion := 1
    name := "UNKNOWN"
    email := "UNKNOWN"
    connected := false
    allowedIPs := []
    endpoint := "10.0.0.3:51820"
    lastHandshake := 0
    lastHandshakeRelative := 200000000000
    receivedBytes := 10
    transmittedBytes := 20 }

/-! Helper instances and lemmas. -/

instance {e a : Type} [DecidableEq e] [DecidableEq a] : DecidableEq (Except e a) := fun
  | .error x, .error y =>
    if h : x = y then .isTrue (congrArg Except.error h)
    else .isFalse (fun hc => h (Except.error.inj hc))
  | .error _, .ok _ => .isFalse (fun hc => Except.noConfusion hc)
  | .ok _, .error _ => .isFalse (fun hc => Except.noConfusion hc)
  | .ok x, .ok y =>
    if h : x = y then .isTrue (congrArg Except.ok h)
    else .isFalse (fun hc => h (Except.ok.inj hc))

theorem append_ne_empty_left (a b : String) (h : a.length ≠ 0) : a ++ b ≠ "" := by
  intro hc
  have hl := congrArg String.length hc
  rw [String.length_append, String.length_empty] at hl
  omega

theorem append_length_pos (a b : String) (h : a.length ≠ 0) : (a ++ b).length ≠ 0 := by
  rw [String.length_append]
  omega

theorem validateAllowedIPs_some (env : Env) (l : List String) (e : Error)
    (h : validateAllowedIPs env l = some e) : e.code = -32602 ∧ e.message ≠ "" := by
  induction l with
  | nil => simp [validateAllowedIPs] at h
  | cons ip rest ih =>
    rw [validateAllowedIPs] at h
    split at h
    · obtain rfl := Option.some.inj h
      exact ⟨rfl, append_ne_empty_left _ _
        (append_length_pos _ _ (append_length_pos _ _ (by decide)))⟩
    · exact ih h

theorem validateAllowedIPs_eq_none (env : Env) (l : List String)
    (h : validateAllowedIPs env l = none) :
    ∀ ip ∈ l, (env.parseCIDR ip).isOk = true := by
  induction l with
  | nil => intro ip hip; cases hip
  | cons a rest ih =>
    rw [validateAllowedIPs] at h
    split at h
    · exact absurd h (by simp)
    · intro ip hip
      rcases List.mem_cons.mp hip with rfl | hm
      · rename_i v heq
        rw [heq]
        rfl
      · exact ih h ip hm

theorem validatePresharedPart_some (env : Env) (req : AddPeerRequest) (e : Error)
    (h : validatePresharedPart env req = some e) :
    e.code = -32602 ∧ e.message ≠ "" := by
  rw [validatePresharedPart] at h
  split at h
  · split at h
    · obtain rfl := Option.some.inj h
      exact ⟨rfl, by decide⟩
    · split at h
      · obtain rfl := Option.some.inj h
        exact ⟨rfl, append_ne_empty_left _ _ (by decide)⟩
      · exact absurd h (by simp)
  · exact absurd h (by simp)

theorem validatePresharedPart_eq_none (env : Env) (req : AddPeerRequest)
    (h : validatePresharedPart env req = none) (hne : req.presharedKey ≠ "") :
    req.presharedKey.length = 44 := by
  rw [validatePresharedPart] at h
  split at h
  · split at h
    · exact absurd h (by simp)
    · rename_i hlen
      omega
  · exact absurd hne (by simp_all)

theorem validateEndpointPart_some (env : Env) (req : AddPeerRequest) (e : Error)
    (h : validateEndpointPart env req = some e) :
    e.code = -32602 ∧ e.message ≠ "" := by
  rw [validateEndpointPart] at h
  split at h
  · split at h
    · obtain rfl := Option.some.inj h
      exact ⟨rfl, append_ne_empty_left _ _ (by decide)⟩
    · exact absurd h (by simp)
  · exact absurd h (by simp)

theorem validateEndpointPart_eq_none (env : Env) (req : AddPeerRequest)
    (h : validateEndpointPart env req = none) (hne : req.endpoint ≠ "") :
    (env.resolveUDPAddr req.endpoint).isOk = true := by
  rw [validateEndpointPart] at h
  split at h
  · split at h
    · exact absurd h (by simp)
    · rename_i v heq
      rw [heq]
      rfl
  · exact absurd hne (by simp_all)

theorem validateKeepalivePart_some (env : Env) (req : AddPeerRequest) (e : Error)
    (h : validateKeepalivePart env req = some e) :
    e.code = -32602 ∧ e.message ≠ "" := by
  rw [validateKeepalivePart] at h
  split at h
  · split at h
    · obtain rfl := Option.some.inj h
      exact ⟨rfl, append_ne_empty_left _ _ (by decide)⟩
    · exact absurd h (by simp)
  · exact absurd h (by simp)

theorem validateKeepalivePart_eq_none (env : Env) (req : AddPeerRequest)
    (h : validateKeepalivePart env req = none) (hne : req.persistentKeepAlive ≠ "") :
    (env.parseDuration req.persistentKeepAlive).isOk = true := by
  rw [validateKeepalivePart] at h
  split at h
  · split at h
    · exact absurd h (by simp)
    · rename_i v heq
      rw [heq]
      rfl
  · exact absurd hne (by simp_all)

theorem validateGetPeerRequest_some (env : Env) (oreq : Option GetPeerRequest)
    (e : Error) (h : validateGetPeerRequest env oreq = some e) :
    e.code = -32602 ∧ e.message ≠ "" := by
  cases oreq with
  | none =>
    obtain rfl := Option.some.inj h
    exact ⟨rfl, by decide⟩
  | some req =>
    simp only [validateGetPeerRequest] at h
    split at h
    · obtain rfl := Option.some.inj h
      exact ⟨rfl, by decide⟩
    · split at h
      · obtain rfl := Option.some.inj h
        exact ⟨rfl, by decide⟩
      · split at h
        · obtain rfl := Option.some.inj h
          exact ⟨rfl, append_ne_empty_left _ _ (by decide)⟩
        · exact absurd h (by simp)

theorem validateGetPeerRequest_eq_none (env : Env) (req : GetPeerRequest)
    (h : validateGetPeerRequest env (some req) = none) :
    req.publicKey.length = 44 ∧ (env.parseKey req.publicKey).isOk = true := by
  simp only [validateGetPeerRequest] at h
  split at h
  · exact absurd h (by simp)
  · split at h
    · exact absurd h (by simp)
    · split at h
      · exact absurd h (by simp)
      · rename_i hne hlen v heq
        rw [heq]
        exact ⟨by omega, rfl⟩

theorem validateRemovePeerRequest_some (env : Env) (oreq : Option RemovePeerRequest)
    (e : Error) (h : validateRemovePeerRequest env oreq = some e) :
    e.code = -32602 ∧ e.message ≠ "" := by
  cases oreq with
  | none =>
    obtain rfl := Option.some.inj h
    exact ⟨rfl, by decide⟩
  | some req =>
    simp only [validateRemovePeerRequest] at h
    split at h
    · obtain rfl := Option.some.inj h
      exact ⟨rfl, by decide⟩
    · split at h
      · obtain rfl := Option.some.inj h
        exact ⟨rfl, by decide⟩
      · split at h
        · obtain rfl := Option.some.inj h
          exact ⟨rfl, append_ne_empty_left _ _ (by decide)⟩
        · exact absurd h (by simp)

theorem validateRemovePeerRequest_eq_none (env : Env) (req : RemovePeerRequest)
    (h : validateRemovePeerRequest env (some req) = none) :
    req.publicKey.length = 44 := by
  simp only [validateRemovePeerRequest] at h
  split at h
  · exact absurd h (by simp)
  · split at h
    · exact absurd h (by simp)
    · rename_i hne hlen
      omega

theorem validateAddPeerRequest_some (env : Env) (oreq : Option AddPeerRequest)
    (e : Error) (h : validateAddPeerRequest env oreq = some e) :
    e.code = -32602 ∧ e.message ≠ "" := by
  cases oreq with
  | none =>
    obtain rfl := Option.some.inj h
    exact ⟨rfl, by decide⟩
  | some req =>
    simp only [validateAddPeerRequest] at h
    split at h
    · obtain rfl := Option.some.inj h
      exact ⟨rfl, by decide⟩
    · split at h
      · obtain rfl := Option.some.inj h
        exact ⟨rfl, by decide⟩
      · split at h
        · obtain rfl := Option.some.inj h
          exact ⟨rfl, append_ne_empty_left _ _ (by decide)⟩
        · split at h
          · rename_i e' heq
            obtain rfl := Option.some.inj h
            exact validatePresharedPart_some env req e' heq
          · split at h
            · rename_i e' heq
              obtain rfl := Option.some.inj h
              exact validateEndpointPart_some env req e' heq
            · split at h
              · rename_i e' heq
                obtain rfl := Option.some.inj h
                exact validateKeepalivePart_some env req e' heq
              · exact validateAllowedIPs_some env req.allowedIPs e h

theorem validateAddPeerRequest_eq_none (env : Env) (req : AddPeerRequest)
    (h : validateAddPeerRequest env (some req) = none) :
    req.publicKey.length = 44 ∧
    (req.presharedKey ≠ "" → req.presharedKey.length = 44) ∧
    (req.endpoint ≠ "" → (env.resolveUDPAddr req.endpoint).isOk = true) ∧
    (req.persistentKeepAlive ≠ "" → (env.parseDuration req.persistentKeepAlive).isOk = true) ∧
    ∀ ip ∈ req.allowedIPs, (env.parseCIDR ip).isOk = true := by
  simp only [validateAddPeerRequest] at h
  by_cases h1 : req.publicKey = ""
  · simp [h1] at h
  simp only [if_neg h1] at h
  by_cases h2 : req.publicKey.length ≠ 44
  · simp [h2] at h
  simp only [if_neg h2] at h
  cases hkey : env.parseKey req.publicKey with
  | error msg => simp [hkey] at h
  | ok v =>
    simp only [hkey] at h
    cases hpre : validatePresharedPart env req with
    | some e' => simp [hpre] at h
    | none =>
      simp only [hpre] at h
      cases hend : validateEndpointPart env req with
      | some e' => simp [hend] at h
      | none =>
        simp only [hend] at h
        cases hkeep : validateKeepalivePart env req with
        | some e' => simp [hkeep] at h
        | none =>
          simp only [hkeep] at h
          exact ⟨by omega,
            validatePresharedPart_eq_none env req hpre,
            validateEndpointPart_eq_none env req hend,
            validateKeepalivePart_eq_none env req hkeep,
            validateAllowedIPs_eq_none env req.allowedIPs h⟩

theorem AddPeer_validate_some (env : Env) (oreq : Option AddPeerRequest) (e : Error)
    (h : validateAddPeerRequest env oreq = some e) :
    AddPeer env oreq = (.error (.rpc e), []) := by
  simp only [AddPeer, h]

theorem RemovePeer_validate_some (env : Env) (oreq : Option RemovePeerRequest) (e : Error)
    (h : validateRemovePeerRequest env oreq = some e) :
    RemovePeer env oreq = (.error (.rpc e), []) := by
  simp only [RemovePeer, h]

theorem GetPeer_validate_some (env : Env) (oreq : Option GetPeerRequest) (e : Error)
    (h : validateGetPeerRequest env oreq = some e) :
    GetPeer env oreq = .error (.rpc e) := by
  simp only [GetPeer, h]

theorem clientStatus_ok (env : Env) (l : List ClientStatus)
    (h : clientStatus env = .ok l) :
    ∃ dev : WDevice, env.device = .ok dev ∧
      l = List.insertionSort statusLe ((dev.peers.map (peer2rpc env)).map
        (newClientStatusOf env (clientsOf env).1 (clientsOf env).2)) := by
  simp only [clientStatus] at h
  cases hnew : env.newResult with
  | error e => simp [hnew] at h
  | ok u =>
    simp only [hnew] at h
    cases hlp : ListPeers env with
    | error e => simp [hlp] at h
    | ok st =>
      simp only [hlp] at h
      obtain rfl := Except.ok.inj h
      simp only [ListPeers] at hlp
      cases hdev : env.device with
      | error msg => simp [hdev] at hlp
      | ok dev =>
        simp only [hdev] at hlp
        obtain rfl := Except.ok.inj hlp
        exact ⟨dev, rfl, rfl⟩

theorem newClientStatusOf_basic (env : Env) (b : Bool) (clients : List Client)
    (peer : Peer) :
    (newClientStatusOf env b clients peer).publicKey = peer.publicKey ∧
    (newClientStatusOf env b clients peer).connected
      = decide (env.now - peer.lastHandshake < threeMinutes) ∧
    (newClientStatusOf env b clients peer).lastHandshakeRelative
      = env.now - peer.lastHandshake := by
  simp only [newClientStatusOf]
  cases b with
  | false => exact ⟨rfl, rfl, rfl⟩
  | true =>
    cases hf : clients.find? (fun c => c.publicKey == peer.publicKey) with
    | some c => simp [hf]
    | none => simp [hf]

/-! Claim theorems. -/

/-- C1: for every AddPeerRequest and every RemovePeerRequest that passes
validation and has the ValidateOnly flag set, AddPeer and RemovePeer
return success (no error, the zero-valued response) without invoking
ConfigureDevice, so the device state is unchanged. -/
theorem claim_C1_validate_only_no_mutation (env : Env)
    (areq : AddPeerRequest) (rreq : RemovePeerRequest)
    (hav : validateAddPeerRequest env (some areq) = none)
    (hao : areq.validateOnly = true)
    (hrv : validateRemovePeerRequest env (some rreq) = none)
    (hro : rreq.validateOnly = true) :
    AddPeer env (some areq) = (.ok ⟨false⟩, []) ∧
    RemovePeer env (some rreq) = (.ok ⟨false⟩, []) := by
  constructor
  · simp [AddPeer, hav, hao]
  · simp [RemovePeer, hrv, hro]

/-- A valid AddPeerRequest with ValidateOnly set. -/
def c1AddReq : AddPeerRequest :=
  ⟨pk44, psk44, "example.com:51820", "25s", ["10.0.0.0/24"], true⟩

/-- A valid RemovePeerRequest with ValidateOnly set. -/
def c1RemReq : RemovePeerRequest := ⟨pk44, true⟩

/-- Witness for C1 at a concrete environment and requests. -/
theorem claim_C1_witness :
    validateAddPeerRequest exEnv (some c1AddReq) = none ∧
    c1AddReq.validateOnly = true ∧
    validateRemovePeerRequest exEnv (some c1RemReq) = none ∧
    c1RemReq.validateOnly = true ∧
    (AddPeer exEnv (some c1AddReq) = (.ok ⟨false⟩, []) ∧
     RemovePeer exEnv (some c1RemReq) = (.ok ⟨false⟩, [])) :=
  ⟨by decide, by decide, by decide, by decide,
   claim_C1_validate_only_no_mutation exEnv c1AddReq c1RemReq
     (by decide) (by decide) (by decide) (by decide)⟩

/-- C5: every AddPeerRequest or RemovePeerRequest failing validation
(a nil request included) makes the operation return exactly the
validation error, which is InvalidParams (code -32602) with a nonempty
message, and ConfigureDevice is never called. -/
theorem claim_C5_validation_failure_invalid_params (env : Env)
    (oa : Option AddPeerRequest) (og : Option RemovePeerRequest)
    (ea er : Error)
    (ha : validateAddPeerRequest env oa = some ea)
    (hr : validateRemovePeerRequest env og = some er) :
    (AddPeer env oa = (.error (.rpc ea), []) ∧
      ea.code = -32602 ∧ ea.message ≠ "") ∧
    (RemovePeer env og = (.error (.rpc er), []) ∧
      er.code = -32602 ∧ er.message ≠ "") := by
  obtain ⟨hc, hm⟩ := validateAddPeerRequest_some env oa ea ha
  obtain ⟨hc', hm'⟩ := validateRemovePeerRequest_some env og er hr
  exact ⟨⟨AddPeer_validate_some env oa ea ha, hc, hm⟩,
    ⟨RemovePeer_validate_some env og er hr, hc', hm'⟩⟩

/-- Witness for C5: nil requests fail validation with InvalidParams. -/
theorem claim_C5_witness :
    validateAddPeerRequest exEnv none
      = some (InvalidParams "request body required" none) ∧
    validateRemovePeerRequest exEnv none
      = some (InvalidParams "request body required" none) ∧
    ((AddPeer exEnv none
        = (.error (.rpc (InvalidParams "request body required" none)), []) ∧
      (InvalidParams "request body required" none).code = -32602 ∧
      (InvalidParams "request body required" none).message ≠ "") ∧
     (RemovePeer exEnv none
        = (.error (.rpc (InvalidParams "request body required" none)), []) ∧
      (InvalidParams "request body required" none).code = -32602 ∧
      (InvalidParams "request body required" none).message ≠ "")) :=
  ⟨by decide, by decide,
   claim_C5_validation_failure_invalid_params exEnv none none
     (InvalidParams "request body required" none)
     (InvalidParams "request body required" none) (by decide) (by decide)⟩

/-- C6: an AddPeerRequest with a malformed CIDR among AllowedIPs, an
unresolvable non-empty Endpoint, or an unparsable non-empty
PersistentKeepAlive makes AddPeer return InvalidParams before any
mutation (ConfigureDevice is never reached). -/
theorem claim_C6_malformed_fields_rejected (env : Env) (req : AddPeerRequest)
    (h : (∃ ip ∈ req.allowedIPs, (env.parseCIDR ip).isOk = false) ∨
      (req.endpoint ≠ "" ∧ (env.resolveUDPAddr req.endpoint).isOk = false) ∨
      (req.persistentKeepAlive ≠ ""
        ∧ (env.parseDuration req.persistentKeepAlive).isOk = false)) :
    ∃ e : Error, AddPeer env (some req) = (.error (.rpc e), [])
      ∧ e.code = -32602 := by
  cases hv : validateAddPeerRequest env (some req) with
  | none =>
    exfalso
    obtain ⟨_, _, hend, hkeep, hips⟩ := validateAddPeerRequest_eq_none env req hv
    rcases h with ⟨ip, hip, hbad⟩ | ⟨hne, hbad⟩ | ⟨hne, hbad⟩
    · rw [hips ip hip] at hbad
      simp at hbad
    · rw [hend hne] at hbad
      simp at hbad
    · rw [hkeep hne] at hbad
      simp at hbad
  | some e =>
    exact ⟨e, AddPeer_validate_some env (some req) e hv,
      (validateAddPeerRequest_some env (some req) e hv).1⟩

/-- An AddPeerRequest with a malformed CIDR range. -/
def c6Req : AddPeerRequest := ⟨pk44, "", "", "", ["300.0.0.0/99"], false⟩

/-- Witness for C6: the malformed CIDR is rejected with -32602. -/
theorem claim_C6_witness :
    ((∃ ip ∈ c6Req.allowedIPs, (exEnv.parseCIDR ip).isOk = false) ∨
      (c6Req.endpoint ≠ "" ∧ (exEnv.resolveUDPAddr c6Req.endpoint).isOk = false) ∨
      (c6Req.persistentKeepAlive ≠ ""
        ∧ (exEnv.parseDuration c6Req.persistentKeepAlive).isOk = false)) ∧
    (∃ e : Error, AddPeer exEnv (some c6Req) = (.error (.rpc e), [])
      ∧ e.code = -32602) :=
  ⟨by decide, claim_C6_malformed_fields_rejected exEnv c6Req (by decide)⟩

/-- An AddPeerRequest whose empty preshared key (length 0, not 44) is
accepted: the counterexample to C4 as stated. -/
def c4Req : AddPeerRequest := ⟨pk44, "", "", "", [], true⟩

/-- C4 counterexample: a preshared key of length 0 (not 44) is accepted
without any error, refuting "the preshared key's length is not 44 →
the operation returns an InvalidParams error". -/
theorem claim_C4_counterexample :
    c4Req.presharedKey.length ≠ 44 ∧
    AddPeer exEnv (some c4Req) = (.ok ⟨false⟩, []) := by
  decide

/-- C4 amended: a public key of length ≠ 44 is always rejected with
InvalidParams by GetPeer, AddPeer and RemovePeer, and a NON-EMPTY
preshared key of length ≠ 44 is always rejected with InvalidParams by
AddPeer (an empty preshared key means "no preshared key" and passes). -/
theorem claim_C4_amended_key_length_rejected (env : Env) (g : GetPeerRequest)
    (a a2 : AddPeerRequest) (r : RemovePeerRequest)
    (hg : g.publicKey.length ≠ 44) (ha : a.publicKey.length ≠ 44)
    (hr : r.publicKey.length ≠ 44)
    (h2 : a2.presharedKey ≠ "") (h2l : a2.presharedKey.length ≠ 44) :
    (∃ e : Error, GetPeer env (some g) = .error (.rpc e) ∧ e.code = -32602) ∧
    (∃ e : Error, AddPeer env (some a) = (.error (.rpc e), [])
      ∧ e.code = -32602) ∧
    (∃ e : Error, RemovePeer env (some r) = (.error (.rpc e), [])
      ∧ e.code = -32602) ∧
    (∃ e : Error, AddPeer env (some a2) = (.error (.rpc e), [])
      ∧ e.code = -32602) := by
  refine ⟨?_, ?_, ?_, ?_⟩
  · cases hv : validateGetPeerRequest env (some g) with
    | none => exact absurd (validateGetPeerRequest_eq_none env g hv).1 hg
    | some e =>
      exact ⟨e, GetPeer_validate_some env (some g) e hv,
        (validateGetPeerRequest_some env (some g) e hv).1⟩
  · cases hv : validateAddPeerRequest env (some a) with
    | none => exact absurd (validateAddPeerRequest_eq_none env a hv).1 ha
    | some e =>
      exact ⟨e, AddPeer_validate_some env (some a) e hv,
        (validateAddPeerRequest_some env (some a) e hv).1⟩
  · cases hv : validateRemovePeerRequest env (some r) with
    | none => exact absurd (validateRemovePeerRequest_eq_none env r hv) hr
    | some e =>
      exact ⟨e, RemovePeer_validate_some env (some r) e hv,
        (validateRemovePeerRequest_some env (some r) e hv).1⟩
  · cases hv : validateAddPeerRequest env (some a2) with
    | none =>
      exact absurd ((validateAddPeerRequest_eq_none env a2 hv).2.1 h2) h2l
    | some e =>
      exact ⟨e, AddPeer_validate_some env (some a2) e hv,
        (validateAddPeerRequest_some env (some a2) e hv).1⟩

/-- An AddPeerRequest with a short (2-character) preshared key. -/
def c4Req2 : AddPeerRequest := ⟨pk44, "BB", "", "", [], false⟩

/-- Witness for the amended C4 at concrete short-key requests. -/
theorem claim_C4_witness :
    ("short" : String).length ≠ 44 ∧
    c4Req2.presharedKey ≠ "" ∧ c4Req2.presharedKey.length ≠ 44 ∧
    ((∃ e : Error, GetPeer exEnv (some ⟨"short"⟩) = .error (.rpc e)
        ∧ e.code = -32602) ∧
     (∃ e : Error, AddPeer exEnv (some ⟨"short", "", "", "", [], false⟩)
        = (.error (.rpc e), []) ∧ e.code = -32602) ∧
     (∃ e : Error, RemovePeer exEnv (some ⟨"short", false⟩)
        = (.error (.rpc e), []) ∧ e.code = -32602) ∧
     (∃ e : Error, AddPeer exEnv (some c4Req2)
        = (.error (.rpc e), []) ∧ e.code = -32602)) :=
  ⟨by decide, by decide, by decide,
   claim_C4_amended_key_length_rejected exEnv ⟨"short"⟩
     ⟨"short", "", "", "", [], false⟩ c4Req2 ⟨"short", false⟩
     (by decide) (by decide) (by decide) (by decide) (by decide)⟩

/-- C8 counterexample: ServerError stores the given code unchecked, so
calling it with -1 yields an Error whose code is not between -32099
and -32000, refuting "every Error produced by ServerError has a code
between -32000 and -32099". -/
theorem claim_C8_counterexample :
    (ServerError (-1) "boom" none).code = -1 ∧
    ¬((-32099 : Int) ≤ (ServerError (-1) "boom" none).code ∧
      (ServerError (-1) "boom" none).code ≤ -32000) := by
  decide

/-- C8 amended: each fixed constructor produces exactly its standard
JSON-RPC code, the message and data are stored unchanged (pure value
construction), and ServerError stores exactly the caller-supplied code
— it is in -32099..-32000 precisely when the argument is, not always. -/
theorem claim_C8_amended_error_codes :
    (∀ m d, (ParseError m d).code = -32700 ∧ (ParseError m d).message = m
      ∧ (ParseError m d).data = d) ∧
    (∀ m d, (InvalidRequest m d).code = -32600
      ∧ (InvalidRequest m d).message = m ∧ (InvalidRequest m d).data = d) ∧
    (∀ m d, (MethodNotFound m d).code = -32601
      ∧ (MethodNotFound m d).message = m ∧ (MethodNotFound m d).data = d) ∧
    (∀ m d, (InvalidParams m d).code = -32602
      ∧ (InvalidParams m d).message = m ∧ (InvalidParams m d).data = d) ∧
    (∀ m d, (InternalError m d).code = -32603
      ∧ (InternalError m d).message = m ∧ (InternalError m d).data = d) ∧
    (∀ c m d, (ServerError c m d).code = c
      ∧ (ServerError c m d).message = m ∧ (ServerError c m d).data = d) :=
  ⟨fun _ _ => ⟨rfl, rfl, rfl⟩, fun _ _ => ⟨rfl, rfl, rfl⟩,
   fun _ _ => ⟨rfl, rfl, rfl⟩, fun _ _ => ⟨rfl, rfl, rfl⟩,
   fun _ _ => ⟨rfl, rfl, rfl⟩, fun _ _ _ => ⟨rfl, rfl, rfl⟩⟩

/-- C9: Enabeled is true iff WG_DEVICE_NAME is non-empty, and
UpdatePeer dispatches to updatePeerCall exactly when Enabeled is true,
otherwise to the fallback core.UpdatePeer. -/
theorem claim_C9_feature_flag_dispatch (env : Env) (peer : MPeer)
    (enable : Bool) :
    (Enabeled env = true ↔ env.wgDeviceName ≠ "") ∧
    (Enabeled env = true →
      UpdatePeer env peer enable = updatePeerCall env peer enable) ∧
    (Enabeled env = false →
      UpdatePeer env peer enable = env.coreUpdatePeer peer enable) := by
  refine ⟨by simp [Enabeled], fun h => ?_, fun h => ?_⟩
  · simp [UpdatePeer, h]
  · simp [UpdatePeer, h]

/-- A model.Peer used to exercise UpdatePeer. -/
def c9Peer : MPeer := ⟨pk44, "", ["10.0.0.0/24"]⟩

/-- Witness for C9 at an enabled and a disabled environment. -/
theorem claim_C9_witness :
    Enabeled exEnv = true ∧ Enabeled exEnvDisabled = false ∧
    UpdatePeer exEnv c9Peer true = updatePeerCall exEnv c9Peer true ∧
    UpdatePeer exEnvDisabled c9Peer true
      = exEnvDisabled.coreUpdatePeer c9Peer true :=
  ⟨by decide, by decide,
   (claim_C9_feature_flag_dispatch exEnv c9Peer true).2.1 (by decide),
   (claim_C9_feature_flag_dispatch exEnvDisabled c9Peer true).2.2 (by decide)⟩

/-- C10: a GetPeerRequest with a well-formed 44-character public key
matching no device peer yields an empty GetPeerResponse (nil Peer)
and no error. -/
theorem claim_C10_get_missing_peer_empty (env : Env) (req : GetPeerRequest)
    (k : Nat) (dev : WDevice)
    (hlen : req.publicKey.length = 44)
    (hk : env.parseKey req.publicKey = .ok k)
    (hdev : env.device = .ok dev)
    (hnone : ∀ p ∈ dev.peers, p.publicKey ≠ k) :
    GetPeer env (some req) = .ok ⟨none⟩ := by
  have hne : req.publicKey ≠ "" := by
    intro hc
    rw [hc] at hlen
    simp at hlen
  have hv : validateGetPeerRequest env (some req) = none := by
    simp [validateGetPeerRequest, hne, hlen, hk]
  have hfind : dev.peers.find? (fun p => p.publicKey == k) = none := by
    rw [List.find?_eq_none]
    intro p hp
    simp [hnone p hp]
  simp [GetPeer, hv, hdev, hk, hfind]

/-- Witness for C10: `pkD44` parses but matches neither device peer. -/
theorem claim_C10_witness :
    pkD44.length = 44 ∧
    exEnv.parseKey pkD44 = .ok 5 ∧
    exEnv.device = .ok exDevice ∧
    (∀ p ∈ exDevice.peers, p.publicKey ≠ 5) ∧
    GetPeer exEnv (some ⟨pkD44⟩) = .ok ⟨none⟩ :=
  ⟨by decide, by decide, by decide, by decide,
   claim_C10_get_missing_peer_empty exEnv ⟨pkD44⟩ 5 exDevice
     (by decide) (by decide) (by decide) (by decide)⟩

/-- C2: in every successful clientStatus result, a peer's Connected
flag is true iff its time since last handshake (LastHandshakeRelative,
in nanoseconds) is strictly less than 3 minutes. -/
theorem claim_C2_connected_iff_recent (env : Env) (l : List ClientStatus)
    (cs : ClientStatus) (h : clientStatus env = .ok l) (hm : cs ∈ l) :
    cs.connected = true ↔ cs.lastHandshakeRelative < threeMinutes := by
  obtain ⟨dev, hdev, rfl⟩ := clientStatus_ok env l h
  rw [List.mem_insertionSort] at hm
  obtain ⟨peer, hp, rfl⟩ := List.mem_map.mp hm
  obtain ⟨hpk, hconn, hrel⟩ :=
    newClientStatusOf_basic env (clientsOf env).1 (clientsOf env).2 peer
  rw [hconn, hrel]
  simp

/-- Witness for C2 on the concrete environment's fresh peer. -/
theorem claim_C2_witness :
    clientStatus exEnv = .ok [exStatusFresh, exStatusStale] ∧
    exStatusFresh ∈ [exStatusFresh, exStatusStale] ∧
    (exStatusFresh.connected = true
      ↔ exStatusFresh.lastHandshakeRelative < threeMinutes) :=
  ⟨by decide, by decide,
   claim_C2_connected_iff_recent exEnv [exStatusFresh, exStatusStale]
     exStatusFresh (by decide) (by decide)⟩

/-- C3: every successful clientStatus result is sorted ascending by
time since last handshake: adjacent elements satisfy
`lastHandshakeRelative ≤ lastHandshakeRelative`. -/
theorem claim_C3_sorted_by_handshake_age (env : Env) (l : List ClientStatus)
    (h : clientStatus env = .ok l) :
    l.Chain' (fun a b => a.lastHandshakeRelative ≤ b.lastHandshakeRelative) := by
  obtain ⟨dev, hdev, rfl⟩ := clientStatus_ok env l h
  exact List.Pairwise.chain' (List.sorted_insertionSort statusLe _)

/-- Witness for C3 at the concrete environment. -/
theorem claim_C3_witness :
    clientStatus exEnv = .ok [exStatusFresh, exStatusStale] ∧
    List.Chain' (fun a b => a.lastHandshakeRelative ≤ b.lastHandshakeRelative)
      [exStatusFresh, exStatusStale] :=
  ⟨by decide,
   claim_C3_sorted_by_handshake_age exEnv [exStatusFresh, exStatusStale]
     (by decide)⟩

/-- C7: in a successful clientStatus result, a peer whose public key
matches no registry client keeps Name and Email "UNKNOWN"; and when
the registry read fails, every peer gets "UNKNOWN" and the call still
succeeds whenever the device and client handle are available. -/
theorem claim_C7_unknown_enrichment (env : Env) :
    (∀ clients l cs, env.readClients = .ok clients → clientStatus env = .ok l →
      cs ∈ l → (∀ c ∈ clients, c.publicKey ≠ cs.publicKey) →
      cs.name = "UNKNOWN" ∧ cs.email = "UNKNOWN") ∧
    (∀ msg l, env.readClients = .error msg → clientStatus env = .ok l →
      ∀ cs ∈ l, cs.name = "UNKNOWN" ∧ cs.email = "UNKNOWN") ∧
    (∀ msg dev, env.readClients = .error msg → env.newResult = .ok () →
      env.device = .ok dev → ∃ l, clientStatus env = .ok l) := by
  refine ⟨?_, ?_, ?_⟩
  · intro clients l cs hrc h hm hno
    obtain ⟨dev, hdev, rfl⟩ := clientStatus_ok env l h
    rw [List.mem_insertionSort] at hm
    obtain ⟨peer, hp, rfl⟩ := List.mem_map.mp hm
    have hco : clientsOf env = (true, clients) := by simp [clientsOf, hrc]
    have hpk :=
      (newClientStatusOf_basic env (clientsOf env).1 (clientsOf env).2 peer).1
    rw [hco] at hno ⊢
    rw [hco] at hpk
    simp only at hno hpk ⊢
    cases hf : clients.find? (fun c => c.publicKey == peer.publicKey) with
    | some c =>
      exfalso
      have hceq : c.publicKey = peer.publicKey := by
        simpa using List.find?_some hf
      have hcm := List.mem_of_find?_eq_some hf
      exact hno c hcm (by rw [hceq, hpk])
    | none =>
      constructor
      · simp [newClientStatusOf, hf]
      · simp [newClientStatusOf, hf]
  · intro msg l hrc h cs hm
    obtain ⟨dev, hdev, rfl⟩ := clientStatus_ok env l h
    rw [List.mem_insertionSort] at hm
    obtain ⟨peer, hp, rfl⟩ := List.mem_map.mp hm
    have hco : clientsOf env = (false, []) := by simp [clientsOf, hrc]
    rw [hco]
    constructor
    · simp [newClientStatusOf]
    · simp [newClientStatusOf]
  · intro msg dev hrc hnew hdev
    refine ⟨List.insertionSort statusLe ((dev.peers.map (peer2rpc env)).map
      (newClientStatusOf env (clientsOf env).1 (clientsOf env).2)), ?_⟩
    simp [clientStatus, hnew, ListPeers, hdev]

/-- Witness for C7: the stale peer is unknown to the registry, and the
registry-less environment still answers. -/
theorem claim_C7_witness :
    exEnv.readClients = .ok [⟨pk44, "alice", "alice@example.com"⟩] ∧
    clientStatus exEnv = .ok [exStatusFresh, exStatusStale] ∧
    exStatusStale ∈ [exStatusFresh, exStatusStale] ∧
    (∀ c ∈ [(⟨pk44, "alice", "alice@example.com"⟩ : Client)],
      c.publicKey ≠ exStatusStale.publicKey) ∧
    (exStatusStale.name = "UNKNOWN" ∧ exStatusStale.email = "UNKNOWN") ∧
    (∃ l, clientStatus exEnvNoReg = .ok l) :=
  ⟨by decide, by decide, by decide, by decide,
   (claim_C7_unknown_enrichment exEnv).1
     [⟨pk44, "alice", "alice@example.com"⟩] [exStatusFresh, exStatusStale]
     exStatusStale (by decide) (by decide) (by decide) (by decide),
   (claim_C7_unknown_enrichment exEnvNoReg).2.2
     "open clients dir: no such file" exDevice (by decide) (by decide)
     (by decide)⟩

end Wgapi
